import Mathlib

/-!
Verification of the option-translation and reporting core of
`src/video_downloader.py` (a yt-dlp command-line wrapper).

The Python source is shallowly embedded: the configuration dictionary
built by `download_video` becomes the structure `YdlOpts`, the progress
callback `progress_hook` becomes a function from an association list
(the Python event dict) to `Except` (raising = `Except.error`), the
row rendering of `list_formats` becomes a pure function on format
records, the `try`/`except` outcome of `download_video` becomes a
function from an abstract engine result, and the idempotent directory
creation becomes a small file-system state model.
-/

set_option autoImplicit false

namespace VideoDownloader

/-- One entry of the `postprocessors` list in the yt-dlp options dict
(source lines 59-63). -/
structure Postprocessor where
  key : String
  preferredcodec : String
  preferredquality : String
deriving DecidableEq, Repr

/-- The yt-dlp options dictionary built by `download_video`
(source lines 45-88).  Fields that are absent from the base dict and
only added by later branches (`format`, `postprocessors`, the subtitle
keys) carry the defaults that Python dict absence denotes.  The
`progress_hooks` entry holds a function value and is not represented;
no claim concerns it. -/
structure YdlOpts where
  outtmpl : String
  ignoreerrors : Bool
  playliststart : Nat
  noplaylist : Bool
  retries : Nat
  fragment_retries : Nat
  format : Option String := none
  postprocessors : List Postprocessor := []
  writesubtitles : Bool := false
  writeautomaticsub : Bool := false
  subtitleslangs : List String := []
deriving DecidableEq, Repr

/-- Model of os.path.join for a relative second component, as used at
source line 46. -/
def os_path_join (a b : String) : String :=
  if a = "" then b
  else if a.endsWith "/" then a ++ b
  else a ++ "/" ++ b

/-- Python truthiness of the optional `format_code` argument: `None`
and the empty string are falsy (`if format_code:` at source line 69). -/
def truthy_opt : Option String → Bool
  | none => false
  | some s => !s.isEmpty

/-- The options dictionary `ydl_opts` as `download_video` constructs it
(source lines 45-88): base options, then the audio/format/quality
branch, then the subtitle branch.  The arguments mirror the Python
parameters of `download_video`. -/
def download_ydl_opts (audio_only : Bool) (output_dir : String) (start : Nat)
    (quality : String) (format_code : Option String) (subtitle : Bool)
    (no_playlist : Bool) : YdlOpts :=
  let base : YdlOpts :=
    { outtmpl := os_path_join output_dir "%(title)s.%(ext)s"
      ignoreerrors := true
      playliststart := start
      noplaylist := no_playlist
      retries := 5
      fragment_retries := 5 }
  let withFormat : YdlOpts :=
    if audio_only then
      { base with
        format := some "bestaudio/best"
        postprocessors := [{ key := "FFmpegExtractAudio"
                             preferredcodec := "mp3"
                             preferredquality := "192" }] }
    else if truthy_opt format_code then
      { base with format := some (format_code.getD "") }
    else if quality = "best" then
      { base with format := some "bestvideo+bestaudio/best" }
    else if quality = "worst" then
      { base with format := some "worst" }
    else
      { base with
        format := some ("bestvideo[height<=" ++ quality ++
          "]+bestaudio/best[height<=" ++ quality ++ "]") }
  if subtitle then
    { withFormat with
      writesubtitles := true
      writeautomaticsub := true
      subtitleslangs := ["en"] }
  else withFormat

/-! Progress hook: source lines 119-127. -/

/-- A Python dict with string keys and string values, as the progress
event dictionaries handed to `progress_hook` (a key that is absent is
simply not in the list; the first binding of a key wins, as in a dict
there is at most one). -/
abbrev EventDict := List (String × String)

/-- Python dict lookup `d.get k` on an event dict: `none` when the key
is absent. -/
def dict_get (d : EventDict) (k : String) : Option String :=
  (d.find? (fun p => p.1 = k)).map (fun p => p.2)

/-- Python dict lookup with a default on an event dict. -/
def dict_getD (d : EventDict) (k default : String) : String :=
  (dict_get d k).getD default

/-- Body of the if/elif chain of `progress_hook` (source lines
121-127),
once the status value is in hand: the list of lines printed.  Every
field access here is `d.get` with a default, hence total. -/
def progress_hook_lines (d : EventDict) (status : String) : List String :=
  if status = "downloading" then
    let percent := dict_getD d "_percent_str" "N/A"
    let speed := dict_getD d "_speed_str" "N/A"
    let eta := dict_getD d "_eta_str" "N/A"
    ["\r⬇️  " ++ percent ++ " at " ++ speed ++ " (ETA: " ++ eta ++ ")   "]
  else if status = "finished" then
    ["\r✓ Download finished, processing...             "]
  else
    []

/-- The hook `progress_hook` (source lines 119-127).  The result is the list of
lines printed; `Except.error` models an uncaught Python exception:
the subscript access `d[status]` raises `KeyError` when the key is absent, and that is
the only fallible access in the function. -/
def progress_hook (d : EventDict) : Except String (List String) :=
  match dict_get d "status" with
  | none => .error "KeyError: status"
  | some status => .ok (progress_hook_lines d status)

/-! Format lister: source lines 142-158. -/

/-- The fields of a raw yt-dlp format record that `list_formats` reads.
`none` stands for a key that is absent from the record (yt-dlp also
uses an explicit null for unknown sizes; both render identically
here and no claim distinguishes them). -/
structure FormatRecord where
  format_id : Option String := none
  ext : Option String := none
  resolution : Option String := none
  vcodec : Option String := none
  filesize_approx : Option Nat := none
  filesize : Option Nat := none
  format_note : Option String := none
deriving DecidableEq, Repr

/-- The effective byte count of source line 152: the filesize_approx
field when present, else the filesize field, else the falsy default 0. -/
def effective_filesize (f : FormatRecord) : Nat :=
  match f.filesize_approx with
  | some v => v
  | none =>
    match f.filesize with
    | some v => v
    | none => 0

/-- The number of tenths of a MiB that the one-decimal float format of
`n / 1024 / 1024`
displays for a byte count `n` (source line 153): `10 * n / 2 ^ 20`
rounded to the nearest integer, ties to even.  (For `n < 2^53` the
float value of `n / 1024 / 1024` is exact, so this decimal rounding is
exactly what Python formats.) -/
def mb_tenths (n : Nat) : Nat :=
  let q := n * 10 / 1048576
  let r := n * 10 % 1048576
  if 524288 < r then q + 1
  else if r < 524288 then q
  else if q % 2 = 0 then q else q + 1

/-- The digits of `mb_tenths` split around the decimal point, as
`"{:.1f}"` lays them out. -/
def render_mb (n : Nat) : String :=
  toString (mb_tenths n / 10) ++ "." ++ toString (mb_tenths n % 10)

/-- The filesize_str variable of source line 153: `"N/A"` when the
effective size is falsy (absent or 0), the one-decimal MB rendering
followed by `"MB"` otherwise. -/
def filesize_str (f : FormatRecord) : String :=
  if effective_filesize f = 0 then "N/A" else render_mb (effective_filesize f) ++ "MB"

/-- Python format with a left-justify minimum-width field: pad `s` to
width `w` with spaces on the right. -/
def ljust (s : String) (w : Nat) : String :=
  s ++ String.mk (List.replicate (w - s.length) ' ')

/-- One table row of `list_formats` (source lines 148-158): the five
columns with the defaults of the corresponding `f.get` calls, laid out
by `"{:<10} {:<15} {:<10} {:<15} {:<10}".format`. -/
def format_row (f : FormatRecord) : String :=
  let fid := f.format_id.getD "N/A"
  let ext := f.ext.getD "N/A"
  let resolution :=
    f.resolution.getD (if f.vcodec = some "none" then "audio only" else "N/A")
  let note := f.format_note.getD ""
  ljust fid 10 ++ " " ++ ljust ext 15 ++ " " ++ ljust resolution 10 ++ " " ++
    ljust (filesize_str f) 15 ++ " " ++ ljust note 10

/-- The rows printed by the loop over the engine-supplied format
records (source
lines 148-158): one row per record, in the order the engine returned
them. -/
def list_format_rows (formats : List FormatRecord) : List String :=
  formats.map format_row

/-! Download outcome: source lines 94-117. -/

/-- What the engine invocation inside the `try` block does: return
normally, raise `KeyboardInterrupt`, or raise any other exception
carrying a message. -/
inductive EngineResult where
  | ok
  | interrupted
  | failed (msg : String)
deriving DecidableEq, Repr

/-- The tail of `download_video` (source lines 108-117): the final
line printed and the Boolean returned, for each way the engine
invocation can end.  `KeyboardInterrupt` is caught first (line 112),
every other exception by the general handler (line 115). -/
def download_outcome : EngineResult → List String × Bool
  | .ok => (["\n✅ Download completed successfully!"], true)
  | .interrupted => (["\n\n⚠️  Download cancelled by user"], false)
  | .failed msg => (["\n❌ Error: " ++ msg], false)

/-! Output directory creation: source lines 40-42. -/

/-- A file-system path, as its list of components. -/
abbrev FsPath := List String

/-- A file system: which directories and which regular files exist.
A fresh model of the two kinds of entry `Path.mkdir` distinguishes. -/
structure FileSystem where
  dirs : List FsPath
  files : List FsPath
deriving DecidableEq, Repr

/-- The nonempty prefixes of a path: the path itself and all its
ancestors. -/
def path_prefixes (p : FsPath) : List FsPath :=
  (List.range p.length).map (fun k => p.take (k + 1))

/-- Model of the pathlib mkdir call with parents and exist_ok both
true (source
lines 41-42): create the directory and any missing parents; an
existing directory is not an error (`exist_ok=True`), but a regular
file in the way still raises. -/
def mkdir_parents_exist_ok (p : FsPath) (fs : FileSystem) :
    Except String FileSystem :=
  if (path_prefixes p).any (fun q => fs.files.contains q) then
    .error "FileExistsError"
  else
    .ok { fs with
          dirs := fs.dirs ++
            (path_prefixes p).filter (fun q => !fs.dirs.contains q) }

/-! Concrete sample data, used by witness statements. -/

/-- A format record with every optional field absent. -/
def sample_record_unknown : FormatRecord := {}

/-- A format record with a known 3 MiB file size. -/
def sample_record_known : FormatRecord :=
  { format_id := some "137"
    ext := some "mp4"
    resolution := some "1920x1080"
    vcodec := some "avc1"
    filesize := some 3145728
    format_note := some "1080p" }

/-! Theorems about the embedded program. -/

/-- Claim C1: with `audio_only = true` the configuration built by
`download_video` has format selector `"bestaudio/best"` and exactly one
post-processing step, `FFmpegExtractAudio` with codec `mp3` and quality
`"192"`, whatever `quality` and `format_code` are. -/
theorem c1_audio_only_config (output_dir : String) (start : Nat)
    (quality : String) (format_code : Option String) (subtitle no_playlist : Bool) :
    (download_ydl_opts true output_dir start quality format_code subtitle
        no_playlist).format = some "bestaudio/best" ∧
    (download_ydl_opts true output_dir start quality format_code subtitle
        no_playlist).postprocessors =
      [{ key := "FFmpegExtractAudio", preferredcodec := "mp3",
         preferredquality := "192" }] := by
  cases subtitle <;> simp [download_ydl_opts]

/-- Claim C2 fails on the code: for `quality = "bogus"` (not `"best"`,
not `"worst"`, not numeric) the builder does not surface any
configuration error — `download_ydl_opts` is a total function into
`YdlOpts` — but silently interpolates the bogus string into the
height-cap selector template. -/
theorem c2_claim_counterexample :
    (download_ydl_opts false "downloads" 1 "bogus" none false false).format =
      some "bestvideo[height<=bogus]+bestaudio/best[height<=bogus]" := by
  decide

/-- Claim C2, amended: for every quality string that is not `"best"`,
not `"worst"`, and not parseable as an integer, with `audio_only = false`
and no format code, the builder silently produces a configuration whose
selector interpolates the quality string verbatim into the height-cap
template; no error is raised. -/
theorem c2_amended_silent_interpolation (output_dir : String) (start : Nat)
    (quality : String) (subtitle no_playlist : Bool)
    (hb : quality ≠ "best") (hw : quality ≠ "worst")
    (_hn : quality.data.all Char.isDigit = false) :
    (download_ydl_opts false output_dir start quality none subtitle
        no_playlist).format =
      some ("bestvideo[height<=" ++ quality ++ "]+bestaudio/best[height<=" ++
        quality ++ "]") := by
  cases subtitle <;> simp [download_ydl_opts, truthy_opt, hb, hw]

/-- Witness for the amended claim C2 at `quality = "bogus"`. -/
theorem c2_amended_witness :
    (download_ydl_opts false "downloads" 1 "bogus" none false false).format =
      some ("bestvideo[height<=" ++ "bogus" ++ "]+bestaudio/best[height<=" ++
        "bogus" ++ "]") :=
  c2_amended_silent_interpolation "downloads" 1 "bogus" false false
    (by decide) (by decide) (by decide)

/-- Claim C3 fails on the code for the empty format code: with
`format_code = some ""` (set, but falsy in Python, so `if format_code:`
skips the pass-through branch) and `quality = "best"`, the selector is
the quality-derived `"bestvideo+bestaudio/best"`, not the verbatim
code `""`. -/
theorem c3_claim_counterexample :
    (download_ydl_opts false "downloads" 1 "best" (some "") false
        false).format = some "bestvideo+bestaudio/best" ∧
    (download_ydl_opts false "downloads" 1 "best" (some "") false
        false).format ≠ some "" := by
  refine ⟨by decide, by decide⟩

/-- Claim C3, amended: for every option combination with
`audio_only = false` and `format_code` set to a non-empty string, the
selector is exactly the user-supplied code, verbatim, whatever
`quality` is. -/
theorem c3_amended_verbatim_format_code (output_dir : String) (start : Nat)
    (quality code : String) (subtitle no_playlist : Bool) (h : code ≠ "") :
    (download_ydl_opts false output_dir start quality (some code) subtitle
        no_playlist).format = some code := by
  have he : code.isEmpty = false := by
    rcases hb : code.isEmpty with _ | _
    · rfl
    · exact absurd ((String.isEmpty_iff code).1 hb) h
  have ht : truthy_opt (some code) = true := by simp [truthy_opt, he]
  cases subtitle <;> simp [download_ydl_opts, ht]

/-- Witness for the amended claim C3 at `code = "137+140"`,
`quality = "worst"`. -/
theorem c3_amended_witness :
    (download_ydl_opts false "downloads" 1 "worst" (some "137+140") false
        false).format = some "137+140" :=
  c3_amended_verbatim_format_code "downloads" 1 "worst" "137+140" false false
    (by decide)

/-- Claim C4: with `audio_only = false` and no format code,
`quality = "best"` selects `"bestvideo+bestaudio/best"`,
`quality = "worst"` selects `"worst"` (the yt-dlp selector for the lowest available
combined stream selector), and any other quality string — in
particular any numeric height `N` such as `"720"` — selects exactly
`"bestvideo[height<=N]+bestaudio/best[height<=N]"`. -/
theorem c4_quality_selection (output_dir : String) (start : Nat)
    (subtitle no_playlist : Bool) :
    (download_ydl_opts false output_dir start "best" none subtitle
        no_playlist).format = some "bestvideo+bestaudio/best" ∧
    (download_ydl_opts false output_dir start "worst" none subtitle
        no_playlist).format = some "worst" ∧
    (∀ quality : String, quality ≠ "best" → quality ≠ "worst" →
      (download_ydl_opts false output_dir start quality none subtitle
          no_playlist).format =
        some ("bestvideo[height<=" ++ quality ++ "]+bestaudio/best[height<=" ++
          quality ++ "]")) ∧
    (download_ydl_opts false output_dir start "720" none subtitle
        no_playlist).format =
      some "bestvideo[height<=720]+bestaudio/best[height<=720]" := by
  refine ⟨?_, ?_, fun quality hb hw => ?_, ?_⟩ <;>
    cases subtitle <;> simp [download_ydl_opts, truthy_opt, *]

/-- Witness for claim C4 at `quality = "1080"`. -/
theorem c4_quality_selection_witness :
    (download_ydl_opts false "downloads" 1 "1080" none false false).format =
      some ("bestvideo[height<=" ++ "1080" ++ "]+bestaudio/best[height<=" ++
        "1080" ++ "]") :=
  (c4_quality_selection "downloads" 1 false false).2.2.1 "1080"
    (by decide) (by decide)

/-- Claim C5 fails on the code: `progress_hook` subscripts the status
key directly rather than using a defaulted lookup, so an event
dictionary without a status key
raises `KeyError` — the hook does not swallow that fault. -/
theorem c5_claim_counterexample :
    progress_hook [] = Except.error "KeyError: status" := rfl

/-- Claim C5, amended: for every event dictionary that carries a
`status` key, `progress_hook` never raises; and for a downloading
event, absent `_percent_str`, `_speed_str` and `_eta_str` fields all
render as the literal placeholder `"N/A"`. -/
theorem c5_amended_no_raise_with_status (d : EventDict) (s : String)
    (h : dict_get d "status" = some s) :
    (∃ out, progress_hook d = Except.ok out) ∧
    (s = "downloading" → dict_get d "_percent_str" = none →
      dict_get d "_speed_str" = none → dict_get d "_eta_str" = none →
      progress_hook d = Except.ok ["\r⬇️  N/A at N/A (ETA: N/A)   "]) := by
  unfold progress_hook
  rw [h]
  refine ⟨⟨_, rfl⟩, fun hd hp hs he => ?_⟩
  subst hd
  simp [progress_hook_lines, dict_getD, hp, hs, he]

/-- Witness for the amended claim C5: a downloading event carrying
only its `status` key renders every field as `"N/A"` and does not
raise. -/
theorem c5_amended_witness :
    progress_hook [("status", "downloading")] =
      Except.ok ["\r⬇️  N/A at N/A (ETA: N/A)   "] :=
  (c5_amended_no_raise_with_status [("status", "downloading")] "downloading"
    rfl).2 rfl rfl rfl rfl

/-- Claim C10: a progress event whose status is neither
`"downloading"` nor `"finished"` — including the engine status `"error"` —
included — produces no output at all: `progress_hook` returns silently
with an empty list of printed lines. -/
theorem c10_other_status_silent (d : EventDict) (s : String)
    (h : dict_get d "status" = some s)
    (hd : s ≠ "downloading") (hf : s ≠ "finished") :
    progress_hook d = Except.ok [] := by
  unfold progress_hook
  rw [h]
  simp [progress_hook_lines, hd, hf]

/-- Witness for claim C10 at an `"error"` status event. -/
theorem c10_other_status_silent_witness :
    progress_hook [("status", "error")] = Except.ok [] :=
  c10_other_status_silent [("status", "error")] "error" rfl
    (by decide) (by decide)

/-- The cancellation message differs from every failure message: their
second characters already disagree. -/
theorem cancel_msg_ne_error_msg (e : String) :
    "\n\n⚠️  Download cancelled by user" ≠ "\n❌ Error: " ++ e := by
  intro hcontra
  have h2 : ("\n\n⚠️  Download cancelled by user" : String).data[1]? =
      (("\n❌ Error: " ++ e) : String).data[1]? := by rw [hcontra]
  rw [String.data_append, List.getElem?_append_left (by decide)] at h2
  exact absurd h2 (by decide)

/-- Claim C6: an interrupt caught mid-download prints the distinct
cancellation message, any other engine exception prints the failure
message carrying the engine text, and for every engine message the
two printed outcomes differ. -/
theorem c6_cancel_vs_failure :
    (download_outcome .interrupted).1 = ["\n\n⚠️  Download cancelled by user"] ∧
    (∀ e, (download_outcome (.failed e)).1 = ["\n❌ Error: " ++ e]) ∧
    (∀ e, (download_outcome .interrupted).1 ≠ (download_outcome (.failed e)).1) := by
  refine ⟨rfl, fun e => rfl, fun e hcontra => ?_⟩
  simp only [download_outcome, List.cons.injEq, and_true] at hcontra
  exact cancel_msg_ne_error_msg e hcontra

/-- Witness for claim C6 at a concrete engine message. -/
theorem c6_cancel_vs_failure_witness :
    (download_outcome .interrupted).1 ≠
      (download_outcome (.failed "Unsupported URL")).1 :=
  c6_cancel_vs_failure.2.2 "Unsupported URL"

/-- Claim C9: the Boolean `download_video` returns collapses the
outcomes — `true` exactly on the uninterrupted success path, and the
same `false` both for a caught `KeyboardInterrupt` and for every other
caught exception. -/
theorem c9_return_value_collapses :
    (download_outcome .ok).2 = true ∧
    (download_outcome .interrupted).2 = false ∧
    (∀ e, (download_outcome (.failed e)).2 = false) :=
  ⟨rfl, rfl, fun _ => rfl⟩

/-- Claim C7: the format table has exactly one row per engine-supplied
record, in the order the engine supplied; the size column is the placeholder
`"N/A"` when no size is known (the code encodes unknown as an
absent key or the falsy 0) and otherwise the size in MB with exactly
one decimal digit, followed by `"MB"`. -/
theorem c7_format_rows (formats : List FormatRecord) :
    (list_format_rows formats).length = formats.length ∧
    (∀ i : Nat, (list_format_rows formats)[i]? = formats[i]?.map format_row) ∧
    (∀ f : FormatRecord, effective_filesize f = 0 → filesize_str f = "N/A") ∧
    (∀ f : FormatRecord, effective_filesize f ≠ 0 →
      ∃ a b : Nat, b < 10 ∧
        filesize_str f = toString a ++ "." ++ toString b ++ "MB") := by
  refine ⟨List.length_map _ _, fun i => List.getElem?_map format_row formats i,
    fun f h => by simp [filesize_str, h], fun f h => ?_⟩
  exact ⟨mb_tenths (effective_filesize f) / 10,
    mb_tenths (effective_filesize f) % 10,
    Nat.mod_lt _ (by norm_num),
    by simp [filesize_str, h, render_mb]⟩

/-- Witness for claim C7 on a two-record table: one with no size
information, one of 3 MiB. -/
theorem c7_format_rows_witness :
    (list_format_rows [sample_record_unknown, sample_record_known]).length = 2 ∧
    filesize_str sample_record_unknown = "N/A" ∧
    (∃ a b : Nat, b < 10 ∧
      filesize_str sample_record_known = toString a ++ "." ++ toString b ++ "MB") :=
  ⟨(c7_format_rows [sample_record_unknown, sample_record_known]).1,
   (c7_format_rows []).2.2.1 sample_record_unknown rfl,
   (c7_format_rows []).2.2.2 sample_record_known (by decide)⟩

/-- Claim C8: directory creation is idempotent — when
`Path(output_dir).mkdir(parents=True, exist_ok=True)` has succeeded
once, running it again on the resulting file system (the directory and
all its parents now existing) succeeds and changes nothing. -/
theorem c8_mkdir_idempotent (p : FsPath) (fs fs2 : FileSystem)
    (h : mkdir_parents_exist_ok p fs = Except.ok fs2) :
    mkdir_parents_exist_ok p fs2 = Except.ok fs2 := by
  unfold mkdir_parents_exist_ok at h ⊢
  by_cases hf : ((path_prefixes p).any fun q => fs.files.contains q) = true
  · rw [if_pos hf] at h
    simp at h
  · rw [if_neg hf] at h
    injection h with h2
    subst h2
    rw [if_neg hf]
    have hfil : (path_prefixes p).filter
        (fun q => !(fs.dirs ++
          (path_prefixes p).filter (fun q => !fs.dirs.contains q)).contains q)
        = [] := by
      rw [List.filter_eq_nil_iff]
      intro q hq
      simp [List.contains, List.elem_iff]
      exact fun hd => ⟨hq, hd⟩
    rw [hfil, List.append_nil]

/-- Witness for claim C8: creating `downloads` on an empty file system
and then again on the result. -/
theorem c8_mkdir_idempotent_witness :
    mkdir_parents_exist_ok ["downloads"] ⟨[["downloads"]], []⟩ =
      Except.ok ⟨[["downloads"]], []⟩ :=
  c8_mkdir_idempotent ["downloads"] ⟨[], []⟩ ⟨[["downloads"]], []⟩ rfl

end VideoDownloader
